import Mathlib

set_option maxRecDepth 10000

/-! Shallow embedding of the process-execution and artifact-synchronization
core of the mx launcher: the batch-splitting loop of the check command in
pytools/commands.py, and the methods Env.run, Env.init_java, Env.download
and Env.update_file of com.oracle.max.shell/mx.py. External library
behavior (subprocess exit codes and captured output, the zipfile reader,
urllib2 response streams, shlex tokenization, the file system) is passed in
as explicit parameters or modelled by small executable functions, as noted
at each definition. -/

/-- Greedy scan of the inner while loop of the batch splitter in the check
command (commands.py): counts how many leading items fit into the current
batch, where an item contributes len(item) + 1 bytes and the running total
must stay strictly below maxBytes (source condition: size + s < 30000). -/
def batchPrefixLen (maxBytes : Nat) : List String → Nat → Nat
  | [], _ => 0
  | x :: xs, size =>
    if size + (x.length + 1) < maxBytes then
      batchPrefixLen maxBytes xs (size + (x.length + 1)) + 1
    else 0

/-- Outer while loop of the batch splitter in the check command, with
explicit fuel: while the list is nonempty, the first batchPrefixLen items
are closed into a batch and the loop continues on the remainder. The value
none means the loop did not terminate within the given number of
iterations; since the source loop has no other exit, a result of none for
every fuel value models divergence of the loop. -/
def splitBatches (maxBytes : Nat) : Nat → List String → Option (List (List String))
  | _, [] => some []
  | 0, _ :: _ => none
  | fuel + 1, x :: xs =>
    let i := batchPrefixLen maxBytes (x :: xs) 0
    match splitBatches maxBytes fuel ((x :: xs).drop i) with
    | some bs => some ((x :: xs).take i :: bs)
    | none => none

/-- One concrete item whose serialized size len + 1 equals the hard-coded
bound 30000 of the check command, hence is not under the bound. -/
def overlongItem : String := String.mk (List.replicate 29999 'a')

/-- Result of attempting to launch and wait for a child process, as observed
by Env.run: either the process started and exited with the given code, or
it could not be started at all (OSError with the given errno). -/
inductive ChildResult where
  | started (retcode : Nat)
  | launchFailure (errno : Nat)
  deriving DecidableEq

/-- Outcome of a call to Env.run. ret means run returned the exit code to
its caller; sysExit models self.abort(retcode), a SystemExit carrying an
integer exit status; raisedCPE models the verbose-mode raise of
subprocess.CalledProcessError; raisedOS models the verbose-mode re-raise
of the OSError. -/
inductive RunOutcome where
  | ret (code : Nat)
  | sysExit (code : Nat)
  | raisedCPE (code : Nat)
  | raisedOS (errno : Nat)
  deriving DecidableEq

/-- Env.run (mx.py): the child either fails to launch (OSError branch:
log, then re-raise when verbose, else abort with the errno) or exits with
retcode; a nonzero retcode under nonZeroIsFatal raises CalledProcessError
when verbose and otherwise aborts with the retcode; in all remaining cases
the retcode is returned. -/
def run (verbose nonZeroIsFatal : Bool) (child : ChildResult) : RunOutcome :=
  match child with
  | .launchFailure errno =>
    if verbose then .raisedOS errno else .sysExit errno
  | .started retcode =>
    if retcode != 0 && nonZeroIsFatal then
      if verbose then .raisedCPE retcode else .sysExit retcode
    else .ret retcode

/-- Exit status of the whole program when the given run outcome terminates
it, none when run returns to its caller. A SystemExit carrying the integer
n terminates the interpreter with status n; an exception left uncaught
(CalledProcessError or OSError re-raised in verbose mode; mx.main catches
only KeyboardInterrupt) terminates the interpreter with status 1 after a
traceback. -/
def runTerminatesProgram : RunOutcome → Option Nat
  | .ret _ => none
  | .sysExit c => some c
  | .raisedCPE _ => some 1
  | .raisedOS _ => some 1

/-- File system model for Env.update_file: a total map from paths to the
current file content, none when the file does not exist. -/
def FS : Type := String → Option String

/-- Env.update_file (mx.py): reads the existing content (None when the file
does not exist; in Python, None compares unequal to every string), returns
False without writing when it equals the new content, and otherwise writes
the new content and returns True. The result is the file system after the
call, the returned Boolean, and the number of writes performed. -/
def update_file (fs : FS) (path content : String) : FS × Bool × Nat :=
  if fs path = some content then (fs, false, 0)
  else (fun p => if p = path then some content else fs p, true, 1)

/-- External world of Env.download: fetchURL models opening a URL with
urllib2 and reading the whole body (none models an IOError on connect or
read); parseZip models handing bytes to zipfile.ZipFile (none models
zipfile.BadZipfile, some gives the archive entries as name and content
pairs). -/
structure FetchEnv where
  fetchURL : String → Option (List Nat)
  parseZip : List Nat → Option (List (String × List Nat))

/-- A urllib2 response stream: read returns the whole remaining body and
exhausts the stream, so a second read returns the empty byte string. -/
structure HttpStream where
  contents : List Nat
  exhausted : Bool

/-- Reading a response stream: the full body on the first read, the empty
byte string on every later read. -/
def streamRead (s : HttpStream) : List Nat × HttpStream :=
  (if s.exhausted then [] else s.contents, { s with exhausted := true })

/-- Index of the first occurrence of the two-character separator sequence
bang slash, as computed by the Python expression url.find with that
separator; none when absent (Python result -1). -/
def findBangSlash : List Char → Option Nat
  | '!' :: '/' :: _ => some 0
  | _ :: rest => (findBangSlash rest).map (· + 1)
  | [] => none

/-- Python partition on the bang-slash separator: the part before the first
occurrence and the part after it; when the separator is absent the whole
string is the first component. -/
def partitionBangSlash (s : List Char) : List Char × List Char :=
  match findBangSlash s with
  | some i => (s.take i, s.drop (i + 2))
  | none => (s, [])

/-- Python startswith, computed structurally over the character lists. -/
def strStartsWith (s pre : String) : Bool :=
  pre.data.isPrefixOf s.data

/-- Lookup of a named entry in a parsed archive, modelling zf.read(entry);
none models the KeyError raised for a missing entry. -/
def lookupEntry : List (String × List Nat) → String → Option (List Nat)
  | [], _ => none
  | (n, bs) :: rest, e => if n = e then some bs else lookupEntry rest e

/-- Outcome of one iteration of the URL loop in Env.download: success means
the iteration wrote the given bytes to the destination and returned;
recover models a caught IOError or BadZipfile that is logged with the
given message before the loop advances; sysExitMsg models self.abort
(SystemExit, which the except clauses for IOError and BadZipfile do not
catch); crash models an uncaught exception such as the KeyError from a
missing archive entry. -/
inductive LocatorResult where
  | success (bytes : List Nat)
  | recover (logMsg : String)
  | sysExitMsg (msg : String)
  | crash
  deriving DecidableEq

/-- One iteration of the URL loop of Env.download (mx.py). For an archive
locator the source first checks for the bang-slash separator and aborts
when it is missing, then opens the outer URL, binds data to the first read
of the response, builds the in-memory archive from a second read of the
already exhausted response, opens it with zipfile, and finally rebinds
data to the bytes of the named entry and writes them; for a plain locator
the body is read once and written. The second streamRead below reproduces
the source line that passes f.read() to StringIO after data = f.read()
has already consumed the stream. -/
def tryLocator (env : FetchEnv) (url : String) : LocatorResult :=
  if strStartsWith url "zip:" || strStartsWith url "jar:" then
    match findBangSlash url.data with
    | none => .sysExitMsg ("Zip or jar URL does not contain \"!/\": " ++ url)
    | some _ =>
      let afterScheme := url.data.drop 4
      let innerUrl := String.mk (partitionBangSlash afterScheme).1
      let entry := String.mk (partitionBangSlash afterScheme).2
      match env.fetchURL innerUrl with
      | none => .recover ("Error reading from " ++ url)
      | some body =>
        let firstRead := streamRead { contents := body, exhausted := false }
        let secondRead := streamRead firstRead.2
        let zipdata := secondRead.1
        match env.parseZip zipdata with
        | none => .recover ("Error in zip file downloaded from " ++ url)
        | some entries =>
          match lookupEntry entries entry with
          | none => .crash
          | some entryBytes => .success entryBytes
  else
    match env.fetchURL url with
    | none => .recover ("Error reading from " ++ url)
    | some body => .success body

/-- LocatorResult classifier: true exactly for the recoverable per-locator
failures that Env.download logs before advancing to the next URL. -/
def isRecover : LocatorResult → Bool
  | .recover _ => true
  | _ => false

/-- URL loop of Env.download: tries each locator in order, collecting the
log lines (the Downloading line of each attempt and the error line of each
recoverable failure) and stopping at the first outcome that is not a
recoverable failure; none means every locator failed recoverably and the
loop fell through to the delegated fallback. -/
def downloadLoop (env : FetchEnv) (path : String) : List String → List String × Option LocatorResult
  | [] => ([], none)
  | u :: rest =>
    match tryLocator env u with
    | .recover m =>
      (("Downloading " ++ u ++ " to " ++ path) :: m :: (downloadLoop env path rest).1,
        (downloadLoop env path rest).2)
    | r => ([("Downloading " ++ u ++ " to " ++ path)], some r)

/-- Abort message assembled by Env.download when the delegated fallback is
observed to fail: it lists every attempted URL and instructs manual
retrieval. -/
def urlListMessage (path : String) (urls : List String) : String :=
  "Could not download to " ++ path ++ " from any of the following URLs:\n\n    " ++
    String.intercalate "\n    " urls ++
    "\n\nPlease use a web browser to do the download manually"

/-- Overall result of Env.download: written means the loop itself wrote the
given bytes to the destination and returned; returned means download fell
through to the delegated Java fetch helper and that subprocess exited with
zero; sysExitMsg and sysExitCode are SystemExit aborts carrying a message
or a bare integer status; crash is an uncaught exception. -/
inductive DownloadResult where
  | written (bytes : List Nat)
  | returned
  | sysExitMsg (msg : String)
  | sysExitCode (code : Nat)
  | crash
  deriving DecidableEq

/-- Delegated fallback of Env.download: the URLConnectionDownload helper is
run through self.run with the default nonZeroIsFatal=True (the helper
recompilation step for a stale class file is elided as an external
toolchain concern); only when run returns a nonzero code would download
abort with the message listing all URLs. -/
def downloadFallback (verbose : Bool) (helper : ChildResult) (urls : List String)
    (path : String) : DownloadResult :=
  match run verbose true helper with
  | .ret retcode =>
    if retcode != 0 then .sysExitMsg (urlListMessage path urls) else .returned
  | .sysExit c => .sysExitCode c
  | .raisedCPE _ => .crash
  | .raisedOS _ => .crash

/-- Env.download (mx.py): runs the URL loop and, when every locator failed
recoverably, the delegated fallback. The directory creation for the
destination is elided as a file-system concern that no claim depends on.
The arm for a recover outcome of the loop is unreachable because the loop
never stops at a recoverable failure. -/
def download (env : FetchEnv) (verbose : Bool) (helper : ChildResult)
    (urls : List String) (path : String) : DownloadResult :=
  match (downloadLoop env path urls).2 with
  | some (.success b) => .written b
  | some (.recover _) => .crash
  | some (.sysExitMsg m) => .sysExitMsg m
  | some .crash => .crash
  | none => downloadFallback verbose helper urls path

/-- Result of running java dash version through subprocess.check_output
with stderr folded into stdout: ok carries the captured combined output,
err carries the CalledProcessError returncode together with the captured
combined output. -/
inductive ProbeResult where
  | ok (output : String)
  | err (returncode : Nat) (output : String)
  deriving DecidableEq

/-- Outcome of a Python call in the environment-initialization model: a
normal result, a SystemExit carrying an integer status or a message, or an
uncaught exception (a failed assert statement or an IndexError). -/
inductive PyOutcome (α : Type) where
  | ok (a : α)
  | sysExitCode (code : Nat)
  | sysExitMsg (msg : String)
  | crash
  deriving DecidableEq

/-- State of the Env object that Env.init_java reads and writes. The raw
fields hold the unparsed command-line argument strings; the token-list
fields are valid once java_initialized is true. The field initRuns is
model instrumentation counting how many times the initialization body
(with its probe subprocess calls) has executed. -/
structure Env where
  java_initialized : Bool
  java : String
  java_args_raw : String
  java_args_pfx_raw : List String
  java_args_sfx_raw : List String
  java_args : List String
  java_args_pfx : List String
  java_args_sfx : List String
  java_dbg : Bool
  initRuns : Nat
  deriving DecidableEq

/-- Whitespace tokenizer: helper walking the characters with an accumulator
for the current word. -/
def splitWsAux : List Char → List Char → List String
  | [], acc => if acc.isEmpty then [] else [String.mk acc.reverse]
  | c :: cs, acc =>
    if c.isWhitespace then
      if acc.isEmpty then splitWsAux cs []
      else String.mk acc.reverse :: splitWsAux cs []
    else splitWsAux cs (c :: acc)

/-- Python str.split with no argument: splits on runs of whitespace and
drops empty tokens. Used for the version-output parsing in init_java. -/
def pySplit (s : String) : List String := splitWsAux s.data []

/-- The helper delAtAndSplit of init_java: strips every leading at sign
(Python lstrip) and tokenizes the rest with the given shell tokenizer
(shlex.split in the source, passed in as a parameter since it is library
behavior). -/
def delAtAndSplit (shl : String → List String) (s : String) : List String :=
  shl (String.mk (s.data.dropWhile (fun c => c == '@')))

/-- Remote-debugging VM flags appended by init_java when java_dbg is set. -/
def dbgArgs : List String :=
  ["-Xdebug", "-Xrunjdwp:transport=dt_socket,server=y,suspend=y,address=8000"]

/-- Field updates performed by a successful run of the init_java body: the
canonical token lists are installed (with the remote-debugging flags
appended when java_dbg is set), the initialized flag is set, and the
instrumentation counter records one more execution of the body. -/
def initSuccess (e : Env) (args pfx sfx : List String) : Env :=
  { e with
    java_args := if e.java_dbg then args ++ dbgArgs else args
    java_args_pfx := pfx
    java_args_sfx := sfx
    java_initialized := true
    initRuns := e.initRuns + 1 }

/-- Version parsing and validation tail of the init_java body: the captured
probe output is whitespace-split, the first token must be java or openjdk
and the second must be version (assert statements; a failure or a missing
third token is an uncaught exception), and the third token must start with
the accepted prefixes, which include the leading double quote of the
quoted version token printed by java: otherwise init_java aborts naming
the required versions. -/
def finishInit (e : Env) (args pfx sfx : List String) (out : String) :
    PyOutcome Env × List String :=
  match pySplit out with
  | t0 :: t1 :: v :: _ =>
    if (t0 = "java" || t0 = "openjdk") && t1 = "version" then
      if !strStartsWith v "\"1.6" && !strStartsWith v "\"1.7" then
        (.sysExitMsg ("Requires Java version 1.6 or 1.7, got version " ++ v), [])
      else
        (.ok (initSuccess e args pfx sfx), [])
    else (.crash, [])
  | _ => (.crash, [])

/-- Body of Env.init_java, reached only when java_initialized is false:
tokenizes the three raw argument strings, probes java with the 64-bit flag
(prepending -d64 on success), falls back to the plain version probe when
the 64-bit probe fails, and aborts printing the captured output and using
the probe returncode as exit status when the plain probe also fails;
otherwise the captured output flows into the version validation. -/
def init_java_body (shl : String → List String) (d64 plain : ProbeResult) (e : Env) :
    PyOutcome Env × List String :=
  let args0 := delAtAndSplit shl e.java_args_raw
  let pfx := (e.java_args_pfx_raw.map (delAtAndSplit shl)).flatten
  let sfx := (e.java_args_sfx_raw.map (delAtAndSplit shl)).flatten
  match d64 with
  | .ok out => finishInit e ("-d64" :: args0) pfx sfx out
  | .err _ _ =>
    match plain with
    | .ok out => finishInit e args0 pfx sfx out
    | .err rc o2 => (.sysExitCode rc, [o2])

/-- Env.init_java (mx.py): returns immediately when already initialized,
otherwise runs the initialization body. The second component collects the
lines printed by the call. -/
def init_java (shl : String → List String) (d64 plain : ProbeResult) (e : Env) :
    PyOutcome Env × List String :=
  if e.java_initialized then (.ok e, []) else init_java_body shl d64 plain e

/-- Iterated calls to init_java, modelling a sequence of Java-invocation
helper calls in one process run; the call chain stops at the first
non-ok outcome. -/
def initN (shl : String → List String) (d64 plain : ProbeResult) :
    Nat → Env → PyOutcome Env × List String
  | 0, e => (.ok e, [])
  | n + 1, e =>
    match init_java shl d64 plain e with
    | (.ok e1, l) => ((initN shl d64 plain n e1).1, l ++ (initN shl d64 plain n e1).2)
    | r => r

/-- Env.format_java_cmd (mx.py): initializes the Java environment and
prepends the java executable and the canonical VM argument lists to the
given arguments. -/
def format_java_cmd (shl : String → List String) (d64 plain : ProbeResult) (e : Env)
    (args : List String) : PyOutcome (Env × List String) :=
  match init_java shl d64 plain e with
  | (.ok e1, _) =>
    .ok (e1, e1.java :: (e1.java_args_pfx ++ e1.java_args ++ e1.java_args_sfx ++ args))
  | (.sysExitCode c, _) => .sysExitCode c
  | (.sysExitMsg m, _) => .sysExitMsg m
  | (.crash, _) => .crash

/-- Concrete shell tokenizer used by witnesses: plain whitespace splitting,
which agrees with shlex.split on strings without quoting or escapes. -/
def shlexWs : String → List String := fun s => splitWsAux s.data []

/-- Concrete Env before initialization, with the default VM arguments of
the launcher, used by witnesses. -/
def testEnv : Env :=
  { java_initialized := false
    java := "/jdk/bin/java"
    java_args_raw := "-ea -Xss2m -Xmx1g"
    java_args_pfx_raw := []
    java_args_sfx_raw := []
    java_args := []
    java_args_pfx := []
    java_args_sfx := []
    java_dbg := false
    initRuns := 0 }

/-- State reached from testEnv by a successful initialization whose 64-bit
probe succeeded with a version 1.6 output. -/
def testEnvReady : Env :=
  { testEnv with
    java_initialized := true
    java_args := ["-d64", "-ea", "-Xss2m", "-Xmx1g"]
    initRuns := 1 }

/-- Concrete archive bytes used by the download witnesses: any nonempty
byte string standing for a well-formed zip archive. -/
def zipBytes : List Nat := [80, 75, 3, 4, 20, 0]

/-- Concrete external world for the archive-extraction scenario: the plain
URL is unreachable, the archive URL serves zipBytes, and the zipfile
reader accepts exactly zipBytes as a valid archive holding one entry
(every other byte string, in particular the empty one, raises
BadZipfile). -/
def c2env : FetchEnv :=
  { fetchURL := fun u => if u = "http://good/a.zip" then some zipBytes else none
    parseZip := fun bs => if bs = zipBytes then some [("entry", [1, 2, 3])] else none }

/-- Concrete external world in which every URL is unreachable. -/
def c3env : FetchEnv :=
  { fetchURL := fun _ => none
    parseZip := fun _ => none }

/-- Concrete external world with one reachable plain URL, used by the
locator-ordering witness. -/
def c7env : FetchEnv :=
  { fetchURL := fun u => if u = "http://up/x" then some [7, 8] else none
    parseZip := fun _ => none }

/-- Concrete external world for the malformed-archive-URL witness. -/
def c10env : FetchEnv :=
  { fetchURL := fun _ => none
    parseZip := fun _ => none }

/-- Concrete file system holding one file, used by the update_file
counterexample. -/
def c8fs : FS := fun p => if p = "dest.txt" then some "payload" else none

/-- Concrete empty file system, used by the update_file witness. -/
def emptyFS : FS := fun _ => none

/-- Claim C1: the batch-splitting loop of the check command is claimed to
partition any item list into batches reconstructing the list, with a
single over-long item occupying its own batch alone. The code instead
makes no progress on an over-long head item: the inner scan accepts zero
items, so the batch is empty, the list is left unchanged, and the outer
loop never terminates, leaving the item in no batch at all. This theorem
evaluates the loop at the failing input: a single item whose serialized
size equals the bound 30000. -/
theorem check_batch_loop_stuck_on_overlong_item :
    ¬ (overlongItem.length + 1 < 30000) ∧
    batchPrefixLen 30000 [overlongItem] 0 = 0 ∧
    ∀ fuel, splitBatches 30000 fuel [overlongItem] = none := by
  have hlen : overlongItem.length = 29999 := by
    show (List.replicate 29999 'a').length = 29999
    exact List.length_replicate 29999 'a'
  have h2 : batchPrefixLen 30000 [overlongItem] 0 = 0 := by
    rw [batchPrefixLen, hlen]
    norm_num
  refine ⟨by rw [hlen]; omega, h2, ?_⟩
  intro fuel
  induction fuel with
  | zero => rfl
  | succ n ih =>
    rw [splitBatches, h2]
    simp only [List.drop_zero, List.take_zero, ih]

/-- Claim C2: the claim states that a fetch whose source list holds an
unreachable plain URL followed by a reachable archive-qualified locator
succeeds and leaves exactly the bytes of the named entry in the
destination. The code instead builds the in-memory archive from a second
read of the already exhausted response stream, that is from the empty
byte string, so the zipfile reader raises BadZipfile, the locator is
logged as a recoverable failure, nothing is written, and download falls
through to the delegated fallback (here failing with exit code 1, so the
whole program aborts). The theorem evaluates the code at this failing
input: c2env serves a valid archive holding entry with bytes 1 2 3. -/
theorem download_archive_entry_lost :
    c2env.fetchURL "http://bad/f" = none ∧
    c2env.fetchURL "http://good/a.zip" = some zipBytes ∧
    c2env.parseZip zipBytes = some [("entry", [1, 2, 3])] ∧
    tryLocator c2env "zip:http://good/a.zip!/entry" =
      .recover ("Error in zip file downloaded from zip:http://good/a.zip!/entry") ∧
    download c2env false (.started 1) ["http://bad/f", "zip:http://good/a.zip!/entry"]
      "dest" = .sysExitCode 1 := by
  decide

/-- Claim C3: the claim states that when every listed URL fails and the
delegated fetch subprocess exits nonzero, download aborts with a message
listing all attempted URLs and instructing manual retrieval. The code
launches the helper through self.run with the default nonZeroIsFatal, so
run itself aborts with a bare SystemExit carrying the exit code before
download can inspect the return value: the branch assembling the
URL-listing message is unreachable on this path. The theorem evaluates
the code at the failing input: two unreachable URLs and a helper exiting
with code 2. -/
theorem download_fallback_abort_is_bare_exit_code :
    (∀ u ∈ ["http://a/x", "http://b/x"], isRecover (tryLocator c3env u) = true) ∧
    download c3env false (.started 2) ["http://a/x", "http://b/x"] "dest" =
      .sysExitCode 2 ∧
    ∀ m, download c3env false (.started 2) ["http://a/x", "http://b/x"] "dest" ≠
      .sysExitMsg m := by
  refine ⟨by decide, by decide, ?_⟩
  intro m hm
  rw [show download c3env false (.started 2) ["http://a/x", "http://b/x"] "dest" =
    .sysExitCode 2 from by decide] at hm
  simp at hm

/-- Claim C4, counterexample: with verbose enabled, a child that starts and
exits with code 2 under nonZeroIsFatal=true makes run raise
CalledProcessError, which no caller catches, so the interpreter terminates
with status 1 and not with the child exit status 2 as the claim states. -/
theorem run_verbose_fatal_counterexample :
    run true true (.started 2) = .raisedCPE 2 ∧
    runTerminatesProgram (run true true (.started 2)) = some 1 ∧
    runTerminatesProgram (run true true (.started 2)) ≠ some 2 := by
  decide

/-- Claim C4, amended: for every child that starts and exits with a nonzero
code n, run with nonZeroIsFatal=true and verbose disabled terminates the
whole program via SystemExit with exit status n (verbose mode raises
CalledProcessError instead), and run with nonZeroIsFatal=false returns n
to the caller without terminating the program, in either mode. -/
theorem run_exit_code_policy (n : Nat) (v : Bool) (hn : n ≠ 0) :
    run false true (.started n) = .sysExit n ∧
    runTerminatesProgram (run false true (.started n)) = some n ∧
    run v false (.started n) = .ret n ∧
    runTerminatesProgram (run v false (.started n)) = none := by
  cases n with
  | zero => exact absurd rfl hn
  | succ m => exact ⟨rfl, rfl, rfl, rfl⟩

/-- Witness for the amended run exit-code policy at the concrete child exit
code 2 with verbose enabled for the non-fatal part. -/
theorem run_exit_code_policy_witness :
    (2 : Nat) ≠ 0 ∧
    (run false true (.started 2) = .sysExit 2 ∧
     runTerminatesProgram (run false true (.started 2)) = some 2 ∧
     run true false (.started 2) = .ret 2 ∧
     runTerminatesProgram (run true false (.started 2)) = none) :=
  ⟨by decide, run_exit_code_policy 2 true (by decide)⟩

/-- Helper: a successful run of the version validation tail sets the
initialized flag, records exactly one more execution of the
initialization body, and prints nothing. -/
theorem finishInit_ok (e : Env) (args pfx sfx : List String) (out : String) (e1 : Env)
    (l : List String) (h : finishInit e args pfx sfx out = (.ok e1, l)) :
    e1.java_initialized = true ∧ e1.initRuns = e.initRuns + 1 ∧ l = [] := by
  unfold finishInit at h
  split at h
  · split at h
    · split at h
      · exact absurd h (by simp)
      · injection h with h1 h2
        injection h1 with h1
        subst h1
        exact ⟨rfl, rfl, h2.symm⟩
    · exact absurd h (by simp)
  · exact absurd h (by simp)

/-- Helper: a successful run of the initialization body sets the
initialized flag, records exactly one more execution, and prints
nothing. -/
theorem init_java_body_ok (shl : String → List String) (d64 plain : ProbeResult)
    (e e1 : Env) (l : List String) (h : init_java_body shl d64 plain e = (.ok e1, l)) :
    e1.java_initialized = true ∧ e1.initRuns = e.initRuns + 1 ∧ l = [] := by
  unfold init_java_body at h
  cases d64 with
  | ok out => exact finishInit_ok _ _ _ _ _ _ _ h
  | err c o =>
    cases plain with
    | ok out => exact finishInit_ok _ _ _ _ _ _ _ h
    | err rc o2 => exact absurd h (by simp)

/-- Helper: once a state satisfies the initialized guard as a fixed point
of init_java, any number of further calls returns it unchanged and prints
nothing. -/
theorem initN_fixed (shl : String → List String) (d64 plain : ProbeResult) (e1 : Env)
    (h : init_java shl d64 plain e1 = (.ok e1, [])) :
    ∀ n, initN shl d64 plain n e1 = (.ok e1, []) := by
  intro n
  induction n with
  | zero => rfl
  | succ n ih =>
    rw [initN, h]
    simp [ih]

/-- Claim C5: across any sequence of calls to the Java-invocation helpers
in one process run, the initialization body of init_java executes at most
once. After one successful call the state carries the initialized flag,
the instrumentation counter shows exactly one execution of the body (with
its probe subprocess calls) whenever the starting state was
uninitialized, every later call returns the same state unchanged with no
output, any longer call chain equals the first call alone, and
format_java_cmd on the initialized state observes it unchanged. -/
theorem init_java_runs_once (shl : String → List String) (d64 plain : ProbeResult)
    (e e1 : Env) (l : List String) (h : init_java shl d64 plain e = (.ok e1, l)) :
    e1.java_initialized = true ∧
    (e.java_initialized = false → e1.initRuns = e.initRuns + 1) ∧
    init_java shl d64 plain e1 = (.ok e1, []) ∧
    (∀ n, initN shl d64 plain (n + 1) e = (.ok e1, l)) ∧
    (∀ args, format_java_cmd shl d64 plain e1 args =
      .ok (e1, e1.java :: (e1.java_args_pfx ++ e1.java_args ++ e1.java_args_sfx ++ args))) := by
  by_cases hi : e.java_initialized = true
  · rw [init_java, if_pos hi] at h
    injection h with h1 h2
    injection h1 with h1
    subst h1
    subst h2
    have h3 : init_java shl d64 plain e = (.ok e, []) := by
      rw [init_java, if_pos hi]
    refine ⟨hi, fun hf => absurd hi (by simp [hf]), h3, ?_, ?_⟩
    · intro n
      rw [initN, h3]
      simp [initN_fixed shl d64 plain e h3 n]
    · intro args
      rw [format_java_cmd, h3]
  · have hi2 : e.java_initialized = false := by
      cases hx : e.java_initialized
      · rfl
      · exact absurd hx hi
    rw [init_java, if_neg hi] at h
    obtain ⟨hb1, hb2, hb3⟩ := init_java_body_ok shl d64 plain e e1 l h
    subst hb3
    have h3 : init_java shl d64 plain e1 = (.ok e1, []) := by
      rw [init_java, if_pos hb1]
    have hfull : init_java shl d64 plain e = (.ok e1, []) := by
      rw [init_java, if_neg hi]
      exact h
    refine ⟨hb1, fun _ => hb2, h3, ?_, ?_⟩
    · intro n
      rw [initN, hfull]
      simp [initN_fixed shl d64 plain e1 h3 n]
    · intro args
      rw [format_java_cmd, h3]

/-- Witness for the once-only initialization at a concrete uninitialized
environment whose 64-bit probe succeeds with a version 1.6 output. -/
theorem init_java_runs_once_witness :
    init_java shlexWs (.ok "java version \"1.6.0_25\"") (.ok "java version \"1.6.0_25\"")
      testEnv = (.ok testEnvReady, []) ∧
    (testEnvReady.java_initialized = true ∧
     (testEnv.java_initialized = false → testEnvReady.initRuns = testEnv.initRuns + 1) ∧
     init_java shlexWs (.ok "java version \"1.6.0_25\"") (.ok "java version \"1.6.0_25\"")
       testEnvReady = (.ok testEnvReady, []) ∧
     (∀ n, initN shlexWs (.ok "java version \"1.6.0_25\"") (.ok "java version \"1.6.0_25\"")
       (n + 1) testEnv = (.ok testEnvReady, [])) ∧
     (∀ args, format_java_cmd shlexWs (.ok "java version \"1.6.0_25\"")
       (.ok "java version \"1.6.0_25\"") testEnvReady args =
       .ok (testEnvReady, testEnvReady.java :: (testEnvReady.java_args_pfx ++
         testEnvReady.java_args ++ testEnvReady.java_args_sfx ++ args)))) :=
  ⟨by decide, init_java_runs_once _ _ _ _ _ _ (by decide)⟩

/-- Claim C6: during init_java, a probe failure other than the expected
64-bit-unsupported case — that is, the plain version probe failing after
the -d64 probe already failed — aborts the whole process printing the
captured combined stdout and stderr of the tool and exiting with the
probe returncode; and a parsed version token that does not start with one
of the accepted prefixes (the literals of the source, which carry the
leading double quote of the quoted version token printed by java) aborts
with a descriptive message naming the required versions 1.6 and 1.7,
whichever probe produced the output. The expected 64-bit-unsupported case
itself proceeds past the probes to version validation rather than
aborting there. -/
theorem init_java_failure_semantics (shl : String → List String) (e : Env)
    (c1 c2 : Nat) (o1 o2 out v : String) (r : List String) (plain : ProbeResult)
    (he : e.java_initialized = false)
    (hs : pySplit out = "java" :: "version" :: v :: r)
    (h6 : strStartsWith v "\"1.6" = false)
    (h7 : strStartsWith v "\"1.7" = false) :
    init_java shl (.err c1 o1) (.err c2 o2) e = (.sysExitCode c2, [o2]) ∧
    init_java shl (.ok out) plain e =
      (.sysExitMsg ("Requires Java version 1.6 or 1.7, got version " ++ v), []) ∧
    init_java shl (.err c1 o1) (.ok out) e =
      (.sysExitMsg ("Requires Java version 1.6 or 1.7, got version " ++ v), []) := by
  refine ⟨?_, ?_, ?_⟩ <;>
    simp [init_java, he, init_java_body, finishInit, hs, h6, h7]

/-- Witness for the probe and version failure semantics at a concrete
uninitialized environment, a version token 1.8.0_05, and captured probe
outputs. -/
theorem init_java_failure_semantics_witness :
    (testEnv.java_initialized = false ∧
     pySplit "java version 1.8.0_05" = "java" :: "version" :: "1.8.0_05" :: [] ∧
     strStartsWith "1.8.0_05" "\"1.6" = false ∧
     strStartsWith "1.8.0_05" "\"1.7" = false) ∧
    (init_java shlexWs (.err 1 "d64 out") (.err 3 "no java") testEnv =
      (.sysExitCode 3, ["no java"]) ∧
     init_java shlexWs (.ok "java version 1.8.0_05") (.ok "other") testEnv =
      (.sysExitMsg ("Requires Java version 1.6 or 1.7, got version " ++ "1.8.0_05"), []) ∧
     init_java shlexWs (.err 1 "d64 out") (.ok "java version 1.8.0_05") testEnv =
      (.sysExitMsg ("Requires Java version 1.6 or 1.7, got version " ++ "1.8.0_05"), [])) :=
  ⟨⟨by decide, by decide, by decide, by decide⟩,
    init_java_failure_semantics shlexWs testEnv 1 3 "d64 out" "no java"
      "java version 1.8.0_05" "1.8.0_05" [] (.ok "other")
      (by decide) (by decide) (by decide) (by decide)⟩

/-- Helper: locators that fail recoverably are skipped by the URL loop, so
the loop outcome on a list with such a prefix equals the outcome on the
remainder. -/
theorem downloadLoop_all_recover (env : FetchEnv) (path : String) (pre l2 : List String)
    (hpre : ∀ x ∈ pre, isRecover (tryLocator env x) = true) :
    (downloadLoop env path (pre ++ l2)).2 = (downloadLoop env path l2).2 := by
  induction pre with
  | nil => rfl
  | cons x xs ih =>
    have hx := hpre x (by simp)
    have hxs : ∀ y ∈ xs, isRecover (tryLocator env y) = true :=
      fun y hy => hpre y (by simp [hy])
    cases hx2 : tryLocator env x with
    | recover m =>
      simp only [List.cons_append, downloadLoop, hx2]
      exact ih hxs
    | success b => rw [hx2] at hx; simp [isRecover] at hx
    | sysExitMsg m => rw [hx2] at hx; simp [isRecover] at hx
    | crash => rw [hx2] at hx; simp [isRecover] at hx

/-- Claim C7: a locator that fails with a transport-level error or a
malformed-archive error is logged (the Downloading line of the attempt
followed by the error line) and the loop continues with the next locator
instead of aborting, as the unchanged loop outcome shows; and the first
locator that succeeds ends the fetch with the written bytes, whatever
locators follow it. -/
theorem download_locator_policy (env : FetchEnv) (verbose : Bool) (helper : ChildResult)
    (path u1 u2 m : String) (b : List Nat) (pre rest : List String)
    (h1 : tryLocator env u1 = .recover m)
    (h2 : tryLocator env u2 = .success b)
    (hpre : ∀ x ∈ pre, isRecover (tryLocator env x) = true) :
    (downloadLoop env path (u1 :: rest)).2 = (downloadLoop env path rest).2 ∧
    (downloadLoop env path (u1 :: rest)).1 =
      ("Downloading " ++ u1 ++ " to " ++ path) :: m :: (downloadLoop env path rest).1 ∧
    download env verbose helper (pre ++ u2 :: rest) path = .written b := by
  refine ⟨?_, ?_, ?_⟩
  · simp only [downloadLoop, h1]
  · simp only [downloadLoop, h1]
  · rw [download, downloadLoop_all_recover env path pre (u2 :: rest) hpre]
    simp only [downloadLoop, h2]

/-- Witness for the locator ordering policy at a concrete world with one
unreachable and one reachable plain URL. -/
theorem download_locator_policy_witness :
    (tryLocator c7env "http://down/x" = .recover "Error reading from http://down/x" ∧
     tryLocator c7env "http://up/x" = .success [7, 8] ∧
     (∀ x ∈ ["http://down/x"], isRecover (tryLocator c7env x) = true)) ∧
    ((downloadLoop c7env "dest" ("http://down/x" :: ["http://other/x"])).2 =
       (downloadLoop c7env "dest" ["http://other/x"]).2 ∧
     (downloadLoop c7env "dest" ("http://down/x" :: ["http://other/x"])).1 =
       ("Downloading " ++ "http://down/x" ++ " to " ++ "dest") ::
         "Error reading from http://down/x" ::
         (downloadLoop c7env "dest" ["http://other/x"]).1 ∧
     download c7env false (.started 0)
       (["http://down/x"] ++ "http://up/x" :: ["http://other/x"]) "dest" =
       .written [7, 8]) :=
  ⟨⟨by decide, by decide, by decide⟩,
    download_locator_policy c7env false (.started 0) "dest" "http://down/x" "http://up/x"
      "Error reading from http://down/x" [7, 8] ["http://down/x"] ["http://other/x"]
      (by decide) (by decide) (by decide)⟩

/-- Claim C10: when the ordered source list reaches a locator that starts
with zip: or jar: but contains no bang-slash separator, download aborts
immediately at that locator with the SystemExit message of self.abort,
which the per-locator except clauses do not catch: the result does not
depend on the remaining locators or on the delegated fallback helper, so
neither is attempted. -/
theorem download_zip_url_without_separator_aborts (env : FetchEnv) (verbose : Bool)
    (helper : ChildResult) (path u : String) (pre rest : List String)
    (hu1 : (strStartsWith u "zip:" || strStartsWith u "jar:") = true)
    (hu2 : findBangSlash u.data = none)
    (hpre : ∀ x ∈ pre, isRecover (tryLocator env x) = true) :
    download env verbose helper (pre ++ u :: rest) path =
      .sysExitMsg ("Zip or jar URL does not contain \"!/\": " ++ u) := by
  have ht : tryLocator env u =
      .sysExitMsg ("Zip or jar URL does not contain \"!/\": " ++ u) := by
    rw [tryLocator, hu2, if_pos hu1]
  rw [download, downloadLoop_all_recover env path pre (u :: rest) hpre]
  simp only [downloadLoop, ht]

/-- Witness for the malformed archive locator abort at a concrete source
list whose first locator fails recoverably. -/
theorem download_zip_url_without_separator_aborts_witness :
    ((strStartsWith "zip:http://x/a.zip" "zip:" ||
        strStartsWith "zip:http://x/a.zip" "jar:") = true ∧
     findBangSlash ("zip:http://x/a.zip").data = none ∧
     (∀ x ∈ ["http://p/x"], isRecover (tryLocator c10env x) = true)) ∧
    download c10env false (.started 0)
      (["http://p/x"] ++ "zip:http://x/a.zip" :: ["http://r/x"]) "dest" =
      .sysExitMsg ("Zip or jar URL does not contain \"!/\": " ++ "zip:http://x/a.zip") :=
  ⟨⟨by decide, by decide, by decide⟩,
    download_zip_url_without_separator_aborts c10env false (.started 0) "dest"
      "zip:http://x/a.zip" ["http://p/x"] ["http://r/x"]
      (by decide) (by decide) (by decide)⟩

/-- Claim C8, counterexample: on a file system where the file already holds
the content, calling update_file twice in a row with that identical
content performs zero writes, not exactly one write as the claim states
for every path and content. -/
theorem update_file_idempotence_counterexample :
    (update_file c8fs "dest.txt" "payload").2.2 = 0 ∧
    (update_file (update_file c8fs "dest.txt" "payload").1 "dest.txt" "payload").2.2 = 0 ∧
    (update_file c8fs "dest.txt" "payload").2.2 +
      (update_file (update_file c8fs "dest.txt" "payload").1 "dest.txt" "payload").2.2 ≠ 1 := by
  exact ⟨rfl, rfl, by decide⟩

/-- Claim C8, amended: calling update_file twice in a row with identical
content performs at most one write — exactly one when the file does not
already hold that content and zero when it does; the second call performs
no write, returns false and leaves the file system unchanged; a
subsequent call with different content performs exactly one more write
and returns true; and update_file returns true exactly on calls that
write changed bytes. -/
theorem update_file_write_policy (fs : FS) (path c c2 : String) (hne : c2 ≠ c) :
    ((update_file fs path c).2.1 = true ↔ ¬ fs path = some c) ∧
    ((update_file fs path c).2.2 = if fs path = some c then 0 else 1) ∧
    (update_file (update_file fs path c).1 path c).2.1 = false ∧
    (update_file (update_file fs path c).1 path c).2.2 = 0 ∧
    (update_file (update_file fs path c).1 path c).1 = (update_file fs path c).1 ∧
    (update_file (update_file fs path c).1 path c2).2.1 = true ∧
    (update_file (update_file fs path c).1 path c2).2.2 = 1 := by
  by_cases h : fs path = some c
  · simp [update_file, h, hne.symm]
  · simp [update_file, h, hne.symm]

/-- Witness for the amended materialization policy starting from the empty
file system. -/
theorem update_file_write_policy_witness :
    ("b" : String) ≠ "a" ∧
    (((update_file emptyFS "f" "a").2.1 = true ↔ ¬ emptyFS "f" = some "a") ∧
     ((update_file emptyFS "f" "a").2.2 = if emptyFS "f" = some "a" then 0 else 1) ∧
     (update_file (update_file emptyFS "f" "a").1 "f" "a").2.1 = false ∧
     (update_file (update_file emptyFS "f" "a").1 "f" "a").2.2 = 0 ∧
     (update_file (update_file emptyFS "f" "a").1 "f" "a").1 =
       (update_file emptyFS "f" "a").1 ∧
     (update_file (update_file emptyFS "f" "a").1 "f" "b").2.1 = true ∧
     (update_file (update_file emptyFS "f" "a").1 "f" "b").2.2 = 1) :=
  ⟨by decide, update_file_write_policy emptyFS "f" "a" "b" (by decide)⟩
